import Mathlib

/-!
Shallow embedding of the orderdesk dashboard script
(src/orderdesk_dashboard.py) and proofs about its business rules.

Dates are modelled as integers counting days since 1970-01-01 (a Thursday),
so Python's date.weekday() (Monday = 0 .. Sunday = 6) becomes
(d + 3) % 7.  Quantities parsed by pd.to_numeric are modelled as
Option integers (None for NaN), ship dates parsed by pd.to_datetime as
Option integers (None for NaT).
-/

/-- String labels used by the script. -/
def labelOverdue : String := "Overdue"

def labelDueTomorrow : String := "Due Tomorrow"

def labelPartiallyShipped : String := "Partially Shipped"

def labelDropShipment : String := "Drop Shipment"

def statusPendingBilling : String := "Pending Billing/Partially Fulfilled"

def missingKeyMessage : String := "🚨 Missing GOOGLE_SERVICE_KEY_B64 in Secrets"

def SHEET_URL : String :=
  "https://docs.google.com/spreadsheets/d/1-Jkuwl9e1FBY6le08_KA3k7v9J3kfDvSYxw7oOJDtPQ/edit#gid=1789939189"

def RAW_TAB_NAME : String := "raw_orders"

/-- A sample non-empty credential value. -/
def sampleKey : String := "c2VydmljZS1rZXk="

/-- Python datetime.weekday on a day count since 1970-01-01 (a Thursday):
Monday = 0, ..., Sunday = 6. -/
def pyWeekday (d : ℤ) : ℤ := (d + 3) % 7

/-- A day is open (a business day) when it is a Mon-Fri weekday and not in the
holiday set; this is the predicate of the loop guard in next_open_day
(src line 183: c.weekday() >= 5 or c in ca_holidays, negated) and of the
CustomBusinessDay frequency (weekmask Mon-Fri plus a holiday list). -/
def isOpenDay (H : List ℤ) (d : ℤ) : Bool :=
  decide (pyWeekday d < 5 ∧ d ∉ H)

/-- The day-by-day advance of next_open_day (src lines 181-185), with explicit
fuel so that the recursion is structural; next_open_day supplies enough fuel. -/
def nextOpenAux (H : List ℤ) : ℕ → ℤ → ℤ
  | 0, c => c
  | n + 1, c => if isOpenDay H c then c else nextOpenAux H n (c + 1)

/-- An explicit open day at or after c: the first Monday strictly above every
holiday and above c.  Used only to bound the fuel of the loop. -/
def upperOpen (H : List ℤ) (c : ℤ) : ℤ :=
  (H.foldr max c + 1) + (4 - (H.foldr max c + 1)) % 7

/-- next_open_day (src lines 181-185): starting from d + 1, advance one day at
a time while the day is a weekend day or a configured holiday. -/
def next_open_day (H : List ℤ) (d : ℤ) : ℤ :=
  nextOpenAux H ((upperOpen H (d + 1) - (d + 1)).toNat + 1) (d + 1)

/-- One order line after the type-casting step of load_data (src lines
164-171): Ship Date is None when pd.to_datetime failed, the two quantities
are None when pd.to_numeric failed. -/
structure Row where
  shipDate : Option ℤ
  quantity : Option ℤ
  quantityFulfilled : Option ℤ
  purchaseOrder : String
  status : String
  documentNumber : String
  name : String

/-- Outstanding Qty (src lines 169-171): Quantity.fillna(0) minus
Quantity Fulfilled/Received.fillna(0). -/
def outstandingQty (r : Row) : ℤ :=
  r.quantity.getD 0 - r.quantityFulfilled.getD 0

/-- Quantity with NaN treated as 0, as in pandas sums (skipna). -/
def quantityFilled (r : Row) : ℤ := r.quantity.getD 0

/-- Quantity Fulfilled/Received with NaN treated as 0. -/
def fulfilledFilled (r : Row) : ℤ := r.quantityFulfilled.getD 0

/-- First bucket condition (src line 191): Outstanding Qty > 0 and
Ship Date <= today; a NaT ship date compares False. -/
def condOverdue (today : ℤ) (r : Row) : Bool :=
  decide (0 < outstandingQty r) &&
    (match r.shipDate with
     | some s => decide (s ≤ today)
     | none => false)

/-- Second bucket condition (src line 192): Outstanding Qty > 0 and
Ship Date == tomorrow; a NaT ship date compares False. -/
def condDueTomorrow (tomorrow : ℤ) (r : Row) : Bool :=
  decide (0 < outstandingQty r) &&
    (match r.shipDate with
     | some s => decide (s = tomorrow)
     | none => false)

/-- Third bucket condition (src line 193): Outstanding Qty > 0 and
Quantity Fulfilled/Received > 0; a NaN quantity compares False. -/
def condPartial (r : Row) : Bool :=
  decide (0 < outstandingQty r) &&
    (match r.quantityFulfilled with
     | some q => decide (0 < q)
     | none => false)

/-- Bucket assignment (src lines 190-198): Bucket starts as NA and the loop
for c, l in zip(conds, labs) writes each label over the rows matching its
condition in order, so a later matching condition overwrites an earlier one. -/
def bucket (today tomorrow : ℤ) (r : Row) : Option String :=
  let b0 : Option String := none
  let b1 : Option String := if condOverdue today r then some labelOverdue else b0
  let b2 : Option String := if condDueTomorrow tomorrow r then some labelDueTomorrow else b1
  if condPartial r then some labelPartiallyShipped else b2

/-- Bucket with tomorrow wired to next_open_day today (src line 187). -/
def bucketOf (H : List ℤ) (today : ℤ) (r : Row) : Option String :=
  bucket today (next_open_day H today) r

/-- Python str.strip(): drop leading and trailing whitespace. -/
def stripChars (cs : List Char) : List Char :=
  ((cs.dropWhile Char.isWhitespace).reverse.dropWhile Char.isWhitespace).reverse

/-- Python str.strip() on a string. -/
def pyStrip (s : String) : String := String.mk (stripChars s.data)

/-- Is Drop Ship flag (src lines 214-215): Purchase Order, stripped, is
non-blank. -/
def isDropShip (r : Row) : Bool :=
  decide (pyStrip r.purchaseOrder ≠ "")

/-- Selection used both by the Overdue Shipments KPI (src lines 380-387) and
by the Overdue tab (src lines 694-700): not a drop shipment, and Bucket is
Overdue or Status is Pending Billing/Partially Fulfilled.  A pd.NA bucket
compares False against the label. -/
def overdueSelected (today tomorrow : ℤ) (r : Row) : Bool :=
  !(isDropShip r) &&
    (decide (bucket today tomorrow r = some labelOverdue) ||
     decide (r.status = statusPendingBilling))

/-- Grouping key of the order summary (src lines 639-641): the tuple
(Document Number, Name, Ship Date, Status).  pandas groupby drops rows whose
key contains NaT, hence the None case. -/
def summaryKey (r : Row) : Option (String × String × ℤ × String) :=
  match r.shipDate with
  | none => none
  | some s => some (r.documentNumber, r.name, s, r.status)

/-- The distinct grouping keys, in order of first appearance (pandas sorts
group keys; the set of rows produced is the same). -/
def summaryKeys (rows : List Row) : List (String × String × ℤ × String) :=
  (rows.filterMap summaryKey).dedup

/-- Membership of a line in the group of a key. -/
def keyMatches (k : String × String × ℤ × String) (r : Row) : Bool :=
  decide (summaryKey r = some k)

/-- The lines of one group. -/
def groupLines (rows : List Row) (k : String × String × ℤ × String) : List Row :=
  rows.filter (keyMatches k)

/-- One aggregated summary row (src lines 639-653), restricted to the three
summed quantity columns the claim is about. -/
structure SummaryRow where
  key : String × String × ℤ × String
  outstandingSum : ℤ
  quantitySum : ℤ
  fulfilledSum : ℤ

/-- The aggregate of one group: sum of Outstanding Qty, Quantity and
Quantity Fulfilled/Received over the group's lines (pandas sum skips NaN). -/
def summaryRowFor (rows : List Row) (k : String × String × ℤ × String) : SummaryRow :=
  { key := k
    outstandingSum := ((groupLines rows k).map outstandingQty).sum
    quantitySum := ((groupLines rows k).map quantityFilled).sum
    fulfilledSum := ((groupLines rows k).map fulfilledFilled).sum }

/-- The order summary table (src lines 639-653): one aggregated row per
distinct grouping key. -/
def orderSummary (rows : List Row) : List SummaryRow :=
  (summaryKeys rows).map (summaryRowFor rows)

/-- One raw sheet record before type casting, string-valued as returned by
get_all_records. -/
structure RawRow where
  shipDate : String
  quantity : String
  quantityFulfilled : String
  purchaseOrder : String
  status : String
  documentNumber : String
  name : String

/-- Type casting of load_data (src lines 164-171).  toDatetime and toNumeric
stand for pd.to_datetime / pd.to_numeric with errors set to coerce: they
return None instead of raising on malformed input. -/
def castRow (toDatetime : String → Option ℤ) (toNumeric : String → Option ℤ)
    (w : RawRow) : Row :=
  { shipDate := toDatetime w.shipDate
    quantity := toNumeric w.quantity
    quantityFulfilled := toNumeric w.quantityFulfilled
    purchaseOrder := w.purchaseOrder
    status := w.status
    documentNumber := w.documentNumber
    name := w.name }

/-- A date caster that fails on every input. -/
def toDatetimeNone : String → Option ℤ := fun _ => none

/-- A numeric caster that fails on every input. -/
def toNumericNone : String → Option ℤ := fun _ => none

/-- Result of get_worksheet (src lines 135-149): either execution halts with
a user-facing error before any contact with the data source, or the sheet is
opened by URL and tab name. -/
inductive WorksheetResult where
  | halted (message : String)
  | opened (sheetUrl tabName : String)
deriving DecidableEq

/-- get_worksheet (src lines 135-149): read GOOGLE_SERVICE_KEY_B64; if it is
missing or empty (Python falsy), show the error and stop; otherwise build
credentials and open the sheet. -/
def get_worksheet (googleServiceKeyB64 : Option String) : WorksheetResult :=
  match googleServiceKeyB64 with
  | none => WorksheetResult.halted missingKeyMessage
  | some b64 =>
      if b64 = "" then WorksheetResult.halted missingKeyMessage
      else WorksheetResult.opened SHEET_URL RAW_TAB_NAME

/-- Number of open days (per the CustomBusinessDay frequency bd with the given
holiday list) in the inclusive interval [a, b]; this is
len(pd.date_range(start=a, end=b, freq=bd)). -/
def businessDayCount (bdHolidays : List ℤ) (a b : ℤ) : ℕ :=
  ((List.range (b + 1 - a).toNat).filter (fun k => isOpenDay bdHolidays (a + k))).length

/-- calc_days_overdue (src lines 201-209): 0 for a missing ship date or one on
or after today, otherwise the bd-business-day count from the ship date to the
day before today. -/
def calc_days_overdue (bdHolidays : List ℤ) (today : ℤ) (shipDate : Option ℤ) : ℕ :=
  match shipDate with
  | none => 0
  | some s => if today ≤ s then 0 else businessDayCount bdHolidays s (today - 1)

/-- The holiday list handed to CustomBusinessDay (src lines 176-179):
list(ca_holidays.keys()) is evaluated right after holidays.CA(prov="ON") is
constructed; that mapping is populated lazily per year on membership lookups,
none of which has happened yet, so the materialized key list is empty. -/
def materializedHolidayKeys : List ℤ := []

/-- Days Overdue as the script computes it (src line 211), with the holiday
list that bd actually received. -/
def daysOverdueOf (today : ℤ) (shipDate : Option ℤ) : ℕ :=
  calc_days_overdue materializedHolidayKeys today shipDate

/-!
Helper lemmas about the business-day walk.
-/

theorem isOpenDay_true_iff (H : List ℤ) (d : ℤ) :
    isOpenDay H d = true ↔ (pyWeekday d < 5 ∧ d ∉ H) := by
  simp [isOpenDay]

theorem le_foldr_max (c : ℤ) (H : List ℤ) : c ≤ H.foldr max c := by
  induction H with
  | nil => exact le_refl c
  | cons a t ih => exact le_trans ih (le_max_right a (t.foldr max c))

theorem mem_le_foldr_max (c : ℤ) {H : List ℤ} {a : ℤ} (ha : a ∈ H) :
    a ≤ H.foldr max c := by
  induction H with
  | nil => cases ha
  | cons b t ih =>
    rcases List.mem_cons.mp ha with h | h
    · exact h ▸ le_max_left b (t.foldr max c)
    · exact le_trans (ih h) (le_max_right b (t.foldr max c))

theorem upperOpen_spec (H : List ℤ) (c : ℤ) :
    isOpenDay H (upperOpen H c) = true ∧ c < upperOpen H c := by
  have hfold := le_foldr_max c H
  constructor
  · rw [isOpenDay_true_iff]
    constructor
    · unfold pyWeekday upperOpen
      omega
    · intro hmem
      have h1 := mem_le_foldr_max c hmem
      unfold upperOpen at h1
      omega
  · unfold upperOpen
    omega

theorem nextOpenAux_spec (H : List ℤ) :
    ∀ (n : ℕ) (c : ℤ), (∃ k : ℕ, k < n ∧ isOpenDay H (c + (k : ℤ)) = true) →
      c ≤ nextOpenAux H n c ∧ isOpenDay H (nextOpenAux H n c) = true ∧
        ∀ e : ℤ, c ≤ e → e < nextOpenAux H n c → isOpenDay H e = false := by
  intro n
  induction n with
  | zero =>
    rintro c ⟨k, hk, -⟩
    exact absurd hk (Nat.not_lt_zero k)
  | succ n ih =>
    rintro c ⟨k, hk, hopen⟩
    by_cases hc : isOpenDay H c = true
    · have hstep : nextOpenAux H (n + 1) c = c := by simp [nextOpenAux, hc]
      rw [hstep]
      exact ⟨le_refl c, hc, fun e hce helt => absurd helt (not_lt.mpr hce)⟩
    · have hc0 : isOpenDay H c = false := by
        cases h : isOpenDay H c
        · rfl
        · exact absurd h hc
      have hstep : nextOpenAux H (n + 1) c = nextOpenAux H n (c + 1) := by
        simp [nextOpenAux, hc0]
      have hk0 : k ≠ 0 := by
        rintro rfl
        rw [Nat.cast_zero, add_zero] at hopen
        exact hc hopen
      obtain ⟨k1, rfl⟩ : ∃ k1, k = k1 + 1 := ⟨k - 1, by omega⟩
      have hex : ∃ m : ℕ, m < n ∧ isOpenDay H ((c + 1) + (m : ℤ)) = true := by
        refine ⟨k1, by omega, ?_⟩
        have hcast : (c + 1) + (k1 : ℤ) = c + ((k1 + 1 : ℕ) : ℤ) := by push_cast; ring
        rw [hcast]
        exact hopen
      obtain ⟨h1, h2, h3⟩ := ih (c + 1) hex
      rw [hstep]
      refine ⟨by omega, h2, ?_⟩
      intro e hce helt
      rcases eq_or_lt_of_le hce with heq | hlt
      · rw [← heq]
        exact hc0
      · exact h3 e (by omega) helt

theorem next_open_day_spec (H : List ℤ) (d : ℤ) :
    d < next_open_day H d ∧ isOpenDay H (next_open_day H d) = true ∧
      ∀ e : ℤ, d < e → e < next_open_day H d → isOpenDay H e = false := by
  obtain ⟨hopen, hlt⟩ := upperOpen_spec H (d + 1)
  have hk : ∃ k : ℕ, k < (upperOpen H (d + 1) - (d + 1)).toNat + 1 ∧
      isOpenDay H ((d + 1) + (k : ℤ)) = true := by
    refine ⟨(upperOpen H (d + 1) - (d + 1)).toNat, by omega, ?_⟩
    have hcast : (d + 1) + ((upperOpen H (d + 1) - (d + 1)).toNat : ℤ) =
        upperOpen H (d + 1) := by omega
    rw [hcast]
    exact hopen
  obtain ⟨h1, h2, h3⟩ :=
    nextOpenAux_spec H ((upperOpen H (d + 1) - (d + 1)).toNat + 1) (d + 1) hk
  refine ⟨?_, h2, ?_⟩
  · show d < next_open_day H d
    unfold next_open_day
    omega
  · intro e hde helt
    unfold next_open_day at helt
    exact h3 e (by omega) helt

theorem bucket_cases (today tomorrow : ℤ) (r : Row) :
    bucket today tomorrow r = none ∨ bucket today tomorrow r = some labelOverdue ∨
      bucket today tomorrow r = some labelDueTomorrow ∨
      bucket today tomorrow r = some labelPartiallyShipped := by
  cases h1 : condPartial r <;> cases h2 : condDueTomorrow tomorrow r <;>
    cases h3 : condOverdue today r <;> simp [bucket, h1, h2, h3]

/-!
Claim theorems.
-/

/-- Claim C2: for every date d, next_open_day returns the smallest date
strictly after d that is a business day, that is a Mon-Fri weekday not in the
configured holiday list; every intervening weekend day or holiday is
skipped. -/
theorem next_open_day_first_open (H : List ℤ) (d : ℤ) :
    d < next_open_day H d ∧ isOpenDay H (next_open_day H d) = true ∧
      ∀ e : ℤ, d < e → e < next_open_day H d → isOpenDay H e = false :=
  next_open_day_spec H d

/-- Witness for C2 at d = 0 (Thursday 1970-01-01) with day 1 (Friday) a
holiday: the result is day 4 (Monday), open, and the skipped day 2
(Saturday) is not open. -/
theorem next_open_day_first_open_witness :
    next_open_day [(1 : ℤ)] 0 = 4 ∧
      isOpenDay [(1 : ℤ)] (next_open_day [(1 : ℤ)] 0) = true ∧
      isOpenDay [(1 : ℤ)] 2 = false :=
  ⟨by decide, (next_open_day_first_open [(1 : ℤ)] 0).2.1,
    (next_open_day_first_open [(1 : ℤ)] 0).2.2 2 (by decide) (by decide)⟩

/-- Claim C9: the day-by-day advance of next_open_day terminates for every
input date: after finitely many steps it reaches a weekday that is not a
holiday, and next_open_day returns that day. -/
theorem next_open_day_reaches_open (H : List ℤ) (d : ℤ) :
    ∃ k : ℕ, next_open_day H d = d + 1 + (k : ℤ) ∧
      isOpenDay H (d + 1 + (k : ℤ)) = true := by
  obtain ⟨h1, h2, -⟩ := next_open_day_spec H d
  refine ⟨(next_open_day H d - (d + 1)).toNat, by omega, ?_⟩
  have hcast : d + 1 + ((next_open_day H d - (d + 1)).toNat : ℤ) =
      next_open_day H d := by omega
  rw [hcast]
  exact h2

/-- Claim C1 counterexample: a line with Outstanding Qty 1 > 0, Ship Date 3
on or before today = 4, and fulfilled quantity 1 > 0 ends up classified
Partially Shipped, not Overdue: the third condition overwrites the first. -/
theorem bucket_overdue_overwritten_cx :
    outstandingQty ⟨some 3, some 2, some 1, "", "", "SO1", "Acme"⟩ = 1 ∧
      (3 : ℤ) ≤ 4 ∧ next_open_day [] 4 = 5 ∧
      bucketOf [] 4 ⟨some 3, some 2, some 1, "", "", "SO1", "Acme"⟩ =
        some labelPartiallyShipped ∧
      ¬ bucketOf [] 4 ⟨some 3, some 2, some 1, "", "", "SO1", "Acme"⟩ =
        some labelOverdue := by
  decide

/-- Claim C1 amended: the classifier writes the three labels in sequence, so
each line receives the label of the last matching condition: Partially
Shipped overrides Due Tomorrow, which overrides Overdue.  In particular a
line matching both the Overdue condition and the Partially Shipped condition
is classified Partially Shipped. -/
theorem bucket_last_match (today tomorrow : ℤ) (r : Row) :
    (bucket today tomorrow r = some labelPartiallyShipped ↔
      condPartial r = true) ∧
    (bucket today tomorrow r = some labelDueTomorrow ↔
      condDueTomorrow tomorrow r = true ∧ condPartial r = false) ∧
    (bucket today tomorrow r = some labelOverdue ↔
      condOverdue today r = true ∧ condDueTomorrow tomorrow r = false ∧
        condPartial r = false) ∧
    (bucket today tomorrow r = none ↔
      condOverdue today r = false ∧ condDueTomorrow tomorrow r = false ∧
        condPartial r = false) ∧
    (condOverdue today r = true → condPartial r = true →
      bucket today tomorrow r = some labelPartiallyShipped) := by
  cases h1 : condPartial r <;> cases h2 : condDueTomorrow tomorrow r <;>
    cases h3 : condOverdue today r <;>
      simp [bucket, h1, h2, h3, labelOverdue, labelDueTomorrow, labelPartiallyShipped]

/-- Witness for C1 amended: the counterexample line is Partially Shipped. -/
theorem bucket_last_match_witness :
    bucket 4 5 ⟨some 3, some 2, some 1, "", "", "SO1", "Acme"⟩ =
      some labelPartiallyShipped :=
  (bucket_last_match 4 5 ⟨some 3, some 2, some 1, "", "", "SO1", "Acme"⟩).2.2.2.2
    (by decide) (by decide)

/-- Claim C4: a fully shipped line (Outstanding Qty zero or negative) is
never assigned any bucket, whatever its ship date and fulfilled quantity. -/
theorem fully_shipped_unbucketed (today tomorrow : ℤ) (r : Row)
    (h : outstandingQty r ≤ 0) : bucket today tomorrow r = none := by
  have h0 : ¬ (0 < outstandingQty r) := not_lt.mpr h
  simp [bucket, condOverdue, condDueTomorrow, condPartial, h0]

/-- Witness for C4: a line ordered 1 and fulfilled 1 gets no bucket. -/
theorem fully_shipped_unbucketed_witness :
    bucket 0 1 ⟨some 0, some 1, some 1, "", "", "SO2", "B"⟩ = none :=
  fully_shipped_unbucketed 0 1 ⟨some 0, some 1, some 1, "", "", "SO2", "B"⟩
    (by decide)

/-- Claim C3 counterexample: two lines of document SO1 with different ship
dates yield two summary rows for that document number, with quantity sums 1
and 2 over the subgroups rather than one row with the document total 3. -/
theorem order_summary_splits_document_cx :
    (orderSummary [⟨some 10, some 1, some 0, "", "S", "SO1", "A"⟩,
        ⟨some 20, some 2, some 0, "", "S", "SO1", "A"⟩]).map SummaryRow.key =
      [("SO1", "A", 10, "S"), ("SO1", "A", 20, "S")] ∧
    (orderSummary [⟨some 10, some 1, some 0, "", "S", "SO1", "A"⟩,
        ⟨some 20, some 2, some 0, "", "S", "SO1", "A"⟩]).map
        SummaryRow.quantitySum = [1, 2] := by
  decide

/-- Claim C3 amended: the summary groups lines by the full key (Document
Number, Name, Ship Date, Status), dropping lines whose ship date failed to
parse; each distinct key yields exactly one summary row whose Outstanding
Qty, Quantity and Quantity Fulfilled/Received are the sums over exactly the
lines sharing that key. -/
theorem order_summary_groups_by_key (rows : List Row)
    (k : String × String × ℤ × String) (hk : k ∈ summaryKeys rows) :
    ((orderSummary rows).map SummaryRow.key).Nodup ∧
    summaryRowFor rows k ∈ orderSummary rows ∧
    (summaryRowFor rows k).outstandingSum =
      ((groupLines rows k).map outstandingQty).sum ∧
    (summaryRowFor rows k).quantitySum =
      ((groupLines rows k).map quantityFilled).sum ∧
    (summaryRowFor rows k).fulfilledSum =
      ((groupLines rows k).map fulfilledFilled).sum := by
  have hmap : (orderSummary rows).map SummaryRow.key = summaryKeys rows := by
    unfold orderSummary
    rw [List.map_map]
    have hcomp : SummaryRow.key ∘ summaryRowFor rows = id := funext fun x => rfl
    rw [hcomp, List.map_id]
  refine ⟨?_, ?_, rfl, rfl, rfl⟩
  · rw [hmap]
    exact List.nodup_dedup _
  · exact List.mem_map_of_mem (summaryRowFor rows) hk

/-- Witness for C3 amended on a one-line table. -/
theorem order_summary_groups_by_key_witness :
    ((orderSummary [⟨some 10, some 1, some 0, "", "S", "SO1", "A"⟩]).map
        SummaryRow.key).Nodup ∧
    summaryRowFor [⟨some 10, some 1, some 0, "", "S", "SO1", "A"⟩]
        ("SO1", "A", 10, "S") ∈
      orderSummary [⟨some 10, some 1, some 0, "", "S", "SO1", "A"⟩] :=
  ⟨(order_summary_groups_by_key [⟨some 10, some 1, some 0, "", "S", "SO1", "A"⟩]
      ("SO1", "A", 10, "S") (by decide)).1,
    (order_summary_groups_by_key [⟨some 10, some 1, some 0, "", "S", "SO1", "A"⟩]
      ("SO1", "A", 10, "S") (by decide)).2.1⟩

/-- Claim C5: type casting never fails on malformed data: an unparseable ship
date becomes none, an unparseable quantity becomes none, and Outstanding Qty
is always the defined number ordered quantity minus fulfilled quantity with
missing values read as zero. -/
theorem cast_coerces_to_null (toDatetime : String → Option ℤ)
    (toNumeric : String → Option ℤ) (w : RawRow) :
    (toDatetime w.shipDate = none → (castRow toDatetime toNumeric w).shipDate = none) ∧
    (toNumeric w.quantity = none → (castRow toDatetime toNumeric w).quantity = none) ∧
    (toNumeric w.quantityFulfilled = none →
      (castRow toDatetime toNumeric w).quantityFulfilled = none) ∧
    outstandingQty (castRow toDatetime toNumeric w) =
      (toNumeric w.quantity).getD 0 - (toNumeric w.quantityFulfilled).getD 0 :=
  ⟨fun h => h, fun h => h, fun h => h, rfl⟩

/-- Witness for C5 with casters that fail on every field: the row still gets
a defined Outstanding Qty of 0. -/
theorem cast_coerces_to_null_witness :
    (castRow toDatetimeNone toNumericNone
        ⟨"not a date", "n/a", "-", "", "S", "SO1", "A"⟩).shipDate = none ∧
    outstandingQty (castRow toDatetimeNone toNumericNone
        ⟨"not a date", "n/a", "-", "", "S", "SO1", "A"⟩) = 0 := by
  refine ⟨(cast_coerces_to_null toDatetimeNone toNumericNone
    ⟨"not a date", "n/a", "-", "", "S", "SO1", "A"⟩).1 rfl, ?_⟩
  rw [(cast_coerces_to_null toDatetimeNone toNumericNone
    ⟨"not a date", "n/a", "-", "", "S", "SO1", "A"⟩).2.2.2]
  decide

/-- Claim C6: a missing or empty GOOGLE_SERVICE_KEY_B64 halts get_worksheet
with the user-facing error message, before any contact with the data source;
any other value makes it proceed to open the sheet, so the guard is the only
handled failure mode. -/
theorem get_worksheet_guard (env : Option String) :
    ((env = none ∨ env = some "") →
      get_worksheet env = WorksheetResult.halted missingKeyMessage) ∧
    (env ≠ none → env ≠ some "" →
      get_worksheet env = WorksheetResult.opened SHEET_URL RAW_TAB_NAME) := by
  constructor
  · rintro (rfl | rfl) <;> rfl
  · intro h1 h2
    cases env with
    | none => exact absurd rfl h1
    | some b64 =>
      have hb : ¬ b64 = "" := fun h => h2 (by rw [h])
      simp [get_worksheet, hb]

/-- Witness for C6: a missing variable halts, a non-empty one proceeds. -/
theorem get_worksheet_guard_witness :
    get_worksheet none = WorksheetResult.halted missingKeyMessage ∧
    get_worksheet (some sampleKey) =
      WorksheetResult.opened SHEET_URL RAW_TAB_NAME :=
  ⟨(get_worksheet_guard none).1 (Or.inl rfl),
    (get_worksheet_guard (some sampleKey)).2 (by decide) (by decide)⟩

/-- Claim C7 counterexample: a line with non-blank Purchase Order is flagged
Is Drop Ship, yet the bucket classifier gives it the label Overdue, not a
Drop Shipment label: Drop Shipment is not one of the labels the classifier
assigns. -/
theorem drop_ship_flag_not_bucket_cx :
    isDropShip ⟨some 3, some 2, some 0, " PO-100 ", "S", "SO9", "A"⟩ = true ∧
    bucketOf [] 4 ⟨some 3, some 2, some 0, " PO-100 ", "S", "SO9", "A"⟩ =
      some labelOverdue ∧
    ¬ bucketOf [] 4 ⟨some 3, some 2, some 0, " PO-100 ", "S", "SO9", "A"⟩ =
      some labelDropShipment := by
  decide

/-- Claim C7 amended: a non-blank Purchase Order sets the separate boolean
Is Drop Ship flag, and the bucket classifier never assigns a Drop Shipment
label: the Bucket column only ever holds Overdue, Due Tomorrow or Partially
Shipped. -/
theorem drop_ship_flag_amended (today tomorrow : ℤ) (r : Row)
    (h : pyStrip r.purchaseOrder ≠ "") :
    isDropShip r = true ∧ bucket today tomorrow r ≠ some labelDropShipment := by
  refine ⟨decide_eq_true h, ?_⟩
  rcases bucket_cases today tomorrow r with h1 | h1 | h1 | h1 <;> rw [h1] <;> decide

/-- Witness for C7 amended. -/
theorem drop_ship_flag_amended_witness :
    isDropShip ⟨none, none, none, " PO-1 ", "", "SO3", "C"⟩ = true ∧
    bucket 0 1 ⟨none, none, none, " PO-1 ", "", "SO3", "C"⟩ ≠
      some labelDropShipment :=
  drop_ship_flag_amended 0 1 ⟨none, none, none, " PO-1 ", "", "SO3", "C"⟩
    (by decide)

/-- Claim C8: the Overdue Shipments KPI and the Overdue tab select exactly
the non-drop-ship lines whose Bucket is Overdue or whose Status is Pending
Billing/Partially Fulfilled; a non-drop-ship line with that status is
selected whatever its bucket, and a drop-ship line is never selected. -/
theorem overdue_selection_spec (today tomorrow : ℤ) (r : Row) :
    (overdueSelected today tomorrow r = true ↔
      (isDropShip r = false ∧ (bucket today tomorrow r = some labelOverdue ∨
        r.status = statusPendingBilling))) ∧
    (isDropShip r = false → r.status = statusPendingBilling →
      overdueSelected today tomorrow r = true) ∧
    (isDropShip r = true → overdueSelected today tomorrow r = false) := by
  refine ⟨?_, ?_, ?_⟩
  · simp [overdueSelected, Bool.and_eq_true, Bool.or_eq_true, Bool.not_eq_true',
      decide_eq_true_eq]
  · intro h1 h2
    simp [overdueSelected, h1, h2]
  · intro h1
    simp [overdueSelected, h1]

/-- Witness for C8: a non-drop-ship line with the pending-billing status but
a future ship date (no bucket) is selected; a drop-ship line with the same
status is not. -/
theorem overdue_selection_spec_witness :
    overdueSelected 4 5 ⟨some 9, some 1, some 0, "", statusPendingBilling,
      "SO4", "D"⟩ = true ∧
    overdueSelected 4 5 ⟨some 3, some 1, some 0, " PO-9 ", statusPendingBilling,
      "SO5", "E"⟩ = false :=
  ⟨(overdue_selection_spec 4 5 ⟨some 9, some 1, some 0, "", statusPendingBilling,
      "SO4", "D"⟩).2.1 (by decide) rfl,
    (overdue_selection_spec 4 5 ⟨some 3, some 1, some 0, " PO-9 ",
      statusPendingBilling, "SO5", "E"⟩).2.2 (by decide)⟩

/-- Claim C10 at a failing input: ship date 2025-06-30 (day 20269, a Monday),
today 2025-07-02 (day 20271, a Wednesday), and Canada Day 2025-07-01 (day
20270, a Tuesday) an Ontario holiday.  The script materializes an empty
holiday list for its business-day frequency, so it counts 2; the number of
business days excluding the holiday, as the claim and the surrounding code
intend, is 1. -/
theorem days_overdue_ignores_holidays :
    daysOverdueOf 20271 (some 20269) = 2 ∧
    calc_days_overdue [20270] 20271 (some 20269) = 1 := by
  decide
